import Mathlib

/-!
Verification of the v4l2py library core against its specification.

The Python source (v4l2py/device.py, v4l2py/config.py) is shallowly
embedded: pure fragments become Lean functions, exception-raising code
returns `Except`, and the stateful buffer-queue and device-lifecycle
protocols become explicit state-passing functions.  Machine integers are
modelled with `Int`/`Nat` (the Python code itself uses unbounded ints),
and the one float expression that matters (the frame timestamp, and
`Fraction` rates) is modelled over `ℚ`.
-/

namespace V4l2py

/-- Error kinds raised by the embedded code.  Following the spec's §7
("Error kinds (not type names)"), `typeError` is the coercion-failure
kind (the Python code raises `ValueError("Failed to coerce ...")`),
`outOfRange` the out-of-bounds kind (Python `ValueError("... exceeds
allowed ...")`).  The remaining constructors name the actual Python
exception classes the code raises. -/
inductive PyErr where
  | typeError
  | outOfRange
  | runtimeWarning
  | attributeError
  | runtimeError
  | configurationError
  | compatibilityError
  | zeroDivisionError
  | queueFull
  | queueEmpty
  | keyError
  deriving DecidableEq, Repr

/-! ## Numeric controls (device.py, `BaseNumericControl`) -/

/-- The relevant fields of a `v4l2_query_ext_ctrl` descriptor used by
`BaseNumericControl.__init__`. -/
structure NumCtrlInfo where
  minimum : ℤ
  maximum : ℤ
  step : ℤ
  default_value : ℤ
  deriving DecidableEq, Repr

/-- The mutable state of a constructed numeric control: the attributes
`BaseNumericControl.__init__` copies out of the descriptor, plus the
`clipping` toggle. -/
structure NumCtrl where
  minimum : ℤ
  maximum : ℤ
  step : ℤ
  clipping : Bool
  deriving DecidableEq, Repr

/-- Python `int(float)` truncates toward zero. -/
def pyIntOfRat (q : ℚ) : ℤ := if 0 ≤ q then ⌊q⌋ else ⌈q⌉

/-- Inputs a caller may assign to a numeric control's `value`:
a Python `int`, a non-integral number, or any other object, which
either coerces via `int(value)` to some integer or fails to coerce. -/
inductive PyNum where
  | pint (z : ℤ)
  | pfloat (q : ℚ)
  | pother (coe : Option ℤ)
  deriving DecidableEq, Repr

/-- `BaseNumericControl._convert_write`: an `int` passes through,
anything else goes through `int(value)`; a coercion failure raises
(kind `typeError`, Python `ValueError("Failed to coerce ... to int")`). -/
def BaseNumericControl.convert_write : PyNum → Except PyErr ℤ
  | .pint z => .ok z
  | .pfloat q => .ok (pyIntOfRat q)
  | .pother (some z) => .ok z
  | .pother none => .error .typeError

/-- `BaseNumericControl._mangle_write`: with clipping, clamp to
`[minimum, maximum]`; without clipping, raise on any value outside the
range (kind `outOfRange`); in-range values pass through. -/
def BaseNumericControl.mangle_write (c : NumCtrl) (v : ℤ) : Except PyErr ℤ :=
  if c.clipping then
    if v < c.minimum then .ok c.minimum
    else if v > c.maximum then .ok c.maximum
    else .ok v
  else
    if v < c.minimum then .error .outOfRange
    else if v > c.maximum then .error .outOfRange
    else .ok v

/-- `BaseMonoControl.value` setter specialised to numeric controls:
`_convert_write`, then `_mangle_write`, then `_set_control` issues the
ioctl write.  An `.ok v` result means a control write of `v` was
issued; `.error` means the exception fired before any write. -/
def BaseNumericControl.set_value (c : NumCtrl) (x : PyNum) : Except PyErr ℤ := do
  let v ← BaseNumericControl.convert_write x
  BaseNumericControl.mangle_write c v

/-- `BaseNumericControl.__init__`: copies `minimum/maximum/step` from
the descriptor, then `raise RuntimeWarning(...)` if the claimed minimum
is below the variant's `lower_bound`, or the claimed maximum above its
`upper_bound`.  A `raise` aborts construction, so the result is
`Except`. -/
def BaseNumericControl.init (lower upper : ℤ) (info : NumCtrlInfo) (clipping : Bool) :
    Except PyErr NumCtrl :=
  if info.minimum < lower then .error .runtimeWarning
  else if info.maximum > upper then .error .runtimeWarning
  else .ok ⟨info.minimum, info.maximum, info.step, clipping⟩

/-- `IntegerControl`: `lower_bound = -(2**31)`, `upper_bound = 2**31 - 1`. -/
def IntegerControl.init : NumCtrlInfo → Bool → Except PyErr NumCtrl :=
  BaseNumericControl.init (-(2 ^ 31)) (2 ^ 31 - 1)

/-- `Integer64Control`: `lower_bound = -(2**63)`, `upper_bound = 2**63 - 1`. -/
def Integer64Control.init : NumCtrlInfo → Bool → Except PyErr NumCtrl :=
  BaseNumericControl.init (-(2 ^ 63)) (2 ^ 63 - 1)

/-- `U8Control`: `lower_bound = 0`, `upper_bound = 2**8`. -/
def U8Control.init : NumCtrlInfo → Bool → Except PyErr NumCtrl :=
  BaseNumericControl.init 0 (2 ^ 8)

/-- `U16Control`: `lower_bound = 0`, `upper_bound = 2**16`. -/
def U16Control.init : NumCtrlInfo → Bool → Except PyErr NumCtrl :=
  BaseNumericControl.init 0 (2 ^ 16)

/-- `U32Control`: `lower_bound = 0`, `upper_bound = 2**32`. -/
def U32Control.init : NumCtrlInfo → Bool → Except PyErr NumCtrl :=
  BaseNumericControl.init 0 (2 ^ 32)

/-! ## Boolean controls (device.py, `BooleanControl`) -/

/-- `BooleanControl._true`. -/
def BooleanControl.true_strings : List String := ["true", "1", "yes", "on", "enable"]

/-- `BooleanControl._false`. -/
def BooleanControl.false_strings : List String := ["false", "0", "no", "off", "disable"]

/-- Inputs a caller may assign to a boolean control's `value`: a Python
`bool`, a `str`, or any other object, which either coerces via
`bool(value)` or fails to coerce. -/
inductive PyBoolInput where
  | pybool (b : Bool)
  | pystr (s : String)
  | pother (coe : Option Bool)
  deriving DecidableEq, Repr

/-- `BooleanControl._convert_write`: a `bool` passes through; a string
is matched against the `_true` and `_false` lists; other objects go
through `bool(value)`.  Everything else raises (kind `typeError`,
Python `ValueError("Failed to coerce ... to bool")`). -/
def BooleanControl.convert_write : PyBoolInput → Except PyErr Bool
  | .pybool b => .ok b
  | .pystr s =>
      if s ∈ BooleanControl.true_strings then .ok true
      else if s ∈ BooleanControl.false_strings then .ok false
      else .error .typeError
  | .pother (some b) => .ok b
  | .pother none => .error .typeError

/-- `BaseMonoControl.value` setter specialised to boolean controls:
`_convert_write` (the `_mangle_write` stage is the identity on
`BaseMonoControl`), then the ioctl write.  `.ok b` means `b` was
written. -/
def BooleanControl.set_value (x : PyBoolInput) : Except PyErr Bool :=
  BooleanControl.convert_write x

end V4l2py

namespace V4l2py

/-! ## Frame-interval enumeration (device.py, `frame_sizes.get_frame_intervals`) -/

/-- A v4l2 fraction (`v4l2_fract`): numerator and denominator, both
unsigned. -/
structure Fract where
  numerator : ℕ
  denominator : ℕ
  deriving DecidableEq, Repr

/-- The fields of a `v4l2_frmivalenum` struct the enumeration loop
reads: the interval type tag and the discrete/stepwise fractions.
Kernel constants: `DISCRETE = 1`, `CONTINUOUS = 2`, `STEPWISE = 3`. -/
structure FrmIval where
  typ : ℕ
  dis : Fract
  stepMin : Fract
  stepMax : Fract
  stepStep : Fract
  deriving DecidableEq, Repr

/-- The `FrameType` namedtuple. -/
structure FrameType where
  typ : ℕ
  pixel_format : ℕ
  width : ℕ
  height : ℕ
  min_fps : ℚ
  max_fps : ℚ
  step_fps : ℚ
  deriving DecidableEq, Repr

/-- One iteration of the loop body of `get_frame_intervals`, for a
struct `v` the kernel filled in.  `fdiv d n` models the Python float
division `val.discrete.denominator / val.discrete.numerator` fed to
`Fraction(...)` in the DISCRETE branch (the theorems below do not
depend on its rounding); Python raises `ZeroDivisionError` when that
numerator is zero.  The stepwise/continuous branch builds exact
`Fraction(denominator, numerator)` rates, normalising a zero numerator
to the rate `0`.  An unknown type tag raises `ValueError` inside
`FrameIntervalType(val.type)`, which the loop catches and turns into a
`break`, modelled as `.ok none`. -/
def get_frame_interval_entry (fdiv : ℕ → ℕ → ℚ) (pfmt w h : ℕ) (v : FrmIval) :
    Except PyErr (Option FrameType) :=
  if v.typ = 1 then
    if v.dis.numerator = 0 then .error .zeroDivisionError
    else
      let fps := fdiv v.dis.denominator v.dis.numerator
      .ok (some ⟨v.typ, pfmt, w, h, fps, fps, fps⟩)
  else if v.typ = 2 ∨ v.typ = 3 then
    let mn : ℚ := if v.stepMin.numerator = 0 then 0
      else (v.stepMin.denominator : ℚ) / (v.stepMin.numerator : ℚ)
    let mx : ℚ := if v.stepMax.numerator = 0 then 0
      else (v.stepMax.denominator : ℚ) / (v.stepMax.numerator : ℚ)
    let st : ℚ := if v.stepStep.numerator = 0 then 0
      else (v.stepStep.denominator : ℚ) / (v.stepStep.numerator : ℚ)
    .ok (some ⟨v.typ, pfmt, w, h, mn, mx, st⟩)
  else
    .ok none

/-- `get_frame_intervals`, folded over the structs the
`ENUM_FRAMEINTERVALS` loop produced: collect entries, stop silently on
an unknown type tag, propagate exceptions. -/
def get_frame_intervals (fdiv : ℕ → ℕ → ℚ) (pfmt w h : ℕ) :
    List FrmIval → Except PyErr (List FrameType)
  | [] => .ok []
  | v :: rest =>
    match get_frame_interval_entry fdiv pfmt w h v with
    | .error e => .error e
    | .ok none => .ok []
    | .ok (some ft) => (get_frame_intervals fdiv pfmt w h rest).map (ft :: ·)

/-! ## The shared index-walk helper (device.py, `iter_read`) -/

/-- Outcome of one ioctl probe: success with a decoded record, the
terminating `EINVAL`, or any other OS error. -/
inductive IoErr where
  | einval
  | other (errno : ℕ)
  deriving DecidableEq, Repr

/-- Python `range(start, stop, step)` for a positive step. -/
def pyRange (start stop step : ℕ) : List ℕ :=
  if step = 0 then [] else List.range' start ((stop - start + step - 1) / step) step

/-- `iter_read(fd, ioc, struct, start, stop, step, ignore_einval)`:
walk the index list, issuing one kernel call per index (`kern i` models
`ioctl` at index `i`); collect the yielded records, stop on `EINVAL`
(or skip it when `ignore_einval`), re-raise any other error. -/
def iter_read {α : Type} (kern : ℕ → Except IoErr α) (ignore_einval : Bool) :
    List ℕ → Except IoErr (List α)
  | [] => .ok []
  | i :: rest =>
    match kern i with
    | .ok a => (iter_read kern ignore_einval rest).map (a :: ·)
    | .error .einval =>
        if ignore_einval then iter_read kern ignore_einval rest else .ok []
    | .error e => .error e

/-- `iter_read` with its default bounds (`start=0, stop=128, step=1,
ignore_einval=False`) — the form used by `iter_read_formats`,
`iter_read_inputs` and `iter_read_controls`. -/
def iter_read_default {α : Type} (kern : ℕ → Except IoErr α) : Except IoErr (List α) :=
  iter_read kern false (pyRange 0 128 1)

/-! ## Buffer-queue accounting (device.py, `QueueReader` / `MemoryMap.raw_grab`)

The kernel queue of a capture session is modelled by which buffer
indices the kernel owns (in queue order) and which the caller owns. -/

/-- Ownership state of the session's buffer set. -/
structure QState where
  kernel : List ℕ
  user : List ℕ
  deriving DecidableEq, Repr

/-- `DQBUF` (`dequeue_buffer`): the kernel hands the front queued
buffer to the caller; with nothing queued the ioctl fails and no
ownership changes (`none`). -/
def dequeue_buffer : QState → Option (ℕ × QState)
  | ⟨[], _⟩ => none
  | ⟨i :: rest, u⟩ => some (i, ⟨rest, u ++ [i]⟩)

/-- `QBUF` (`enqueue_buffer`) of buffer `i`: the caller gives `i` back
to the kernel, which appends it to its queue. -/
def enqueue_buffer (st : QState) (i : ℕ) : QState :=
  ⟨st.kernel ++ [i], st.user.erase i⟩

/-- The `QueueReader` context manager: `__enter__` dequeues one buffer
and records its index, the body runs on it (possibly raising — the
body's outcome is an arbitrary `Except`), and `__exit__` re-enqueues
the recorded index unconditionally, i.e. on normal and on exceptional
exit alike.  `none` means `__enter__`'s DQBUF itself failed, in which
case `__exit__` never runs. -/
def QueueReader.scope {ε α : Type} (st : QState) (body : ℕ → Except ε α) :
    Option (Except ε α × QState) :=
  match dequeue_buffer st with
  | none => none
  | some (i, st1) => some (body i, enqueue_buffer st1 i)

/-- `n` successive grab scopes (`MemoryMap.raw_grab` is one
`QueueReader.scope` per frame): the ownership state threaded through an
iteration that yields `n` frames. -/
def grab_iter {ε α : Type} (body : ℕ → Except ε α) : ℕ → QState → Option QState
  | 0, st => some st
  | n + 1, st =>
    match QueueReader.scope st body with
    | none => none
    | some (_, st1) => grab_iter body n st1

/-! ## Frames (device.py, `Frame` / `MemoryMap.raw_grab` / `raw_read`) -/

/-- `v4l2_buffer.timestamp` (`struct timeval`). -/
structure TimeVal where
  secs : ℕ
  usecs : ℕ
  deriving DecidableEq, Repr

/-- The fields of a dequeued `v4l2_buffer` that `raw_grab`/`Frame`
read. -/
structure RawBuffer where
  index : ℕ
  bytesused : ℕ
  sequence : ℕ
  timestamp : TimeVal
  deriving DecidableEq, Repr

/-- The `Format` namedtuple (`width height pixel_format`); the pixel
format is its FOURCC code. -/
structure Format where
  width : ℕ
  height : ℕ
  pixel_format : ℕ
  deriving DecidableEq, Repr

/-- The state `MemoryMap.raw_grab` reads: the mapped region per buffer
index (`self.buffers`, each region a byte list) and the session's
cached `self.format`. -/
structure MemoryMapState where
  buffers : List (List ℕ)
  format : Format
  deriving DecidableEq, Repr

/-- The `Frame` object: backing bytes, the dequeued buffer record, and
the session format. -/
structure Frame where
  data : List ℕ
  buff : RawBuffer
  format : Format
  deriving DecidableEq, Repr

/-- `Frame.__bytes__`. -/
def Frame.toBytes (f : Frame) : List ℕ := f.data

/-- `Frame.timestamp`: `self.buff.timestamp.secs +
self.buff.timestamp.usecs * 1e-6` (microseconds), over `ℚ`. -/
def Frame.timestamp (f : Frame) : ℚ :=
  (f.buff.timestamp.secs : ℚ) + (f.buff.timestamp.usecs : ℚ) * (1 / 1000000)

/-- `Frame.pixel_format`: the pixel format of the frame's `Format`. -/
def Frame.pixel_format (f : Frame) : ℕ := f.format.pixel_format

/-- The data part of `MemoryMap.raw_grab` for the buffer `buff` that
`self.reader` dequeued: `self.buffers[buff.index][: buff.bytesused]`.
Python list indexing raises `IndexError` out of range (`none`); the
slice truncates at the region's length.  (The requeue-on-scope-exit
part of `raw_grab` is `QueueReader.scope` above.) -/
def MemoryMap.raw_grab (st : MemoryMapState) (buff : RawBuffer) :
    Option (List ℕ × RawBuffer) :=
  match st.buffers.get? buff.index with
  | none => none
  | some region => some (region.take buff.bytesused, buff)

/-- `MemoryMap.raw_read`: wrap the grabbed slice into a `Frame`
carrying the session's current format. -/
def MemoryMap.raw_read (st : MemoryMapState) (buff : RawBuffer) : Option Frame :=
  (MemoryMap.raw_grab st buff).map fun p => ⟨p.1, p.2, st.format⟩

/-! ## Device lifecycle (device.py, `ReentrantContextManager` / `Device`) -/

/-- The underlying file object, as far as `Device` observes it: only
its `closed` flag. -/
structure PyFile where
  closed : Bool
  deriving DecidableEq, Repr

/-- The lifecycle state of a `Device`: `_fobj` (absent when no
descriptor is held) and the `ReentrantContextManager`'s
`_context_level` nesting counter. -/
structure Device where
  fobj : Option PyFile
  context_level : ℤ
  deriving DecidableEq, Repr

/-- `Device.closed`: `self._fobj is None or self._fobj.closed`. -/
def Device.closed (d : Device) : Bool :=
  match d.fobj with
  | none => true
  | some f => f.closed

/-- `Device.open`: `if not self._fobj:` acquire a fresh (open) file
object; present file objects — open or not — are truthy, so nothing
happens then. -/
def Device.do_open (d : Device) : Device :=
  if d.fobj.isNone then { d with fobj := some ⟨false⟩ } else d

/-- `Device.close`: `if not self.closed:` close the file object and
drop the reference (`self._fobj = None`). -/
def Device.do_close (d : Device) : Device :=
  if d.closed then d else { d with fobj := none }

/-- `ReentrantContextManager.__enter__`: open when the nesting level is
zero, then increment it. -/
def Device.enter (d : Device) : Device :=
  let d1 := if d.context_level = 0 then d.do_open else d
  { d1 with context_level := d1.context_level + 1 }

/-- `ReentrantContextManager.__exit__`: decrement the nesting level,
then close when it reached zero. -/
def Device.leave (d : Device) : Device :=
  let d1 := { d with context_level := d.context_level - 1 }
  if d1.context_level = 0 then d1.do_close else d1

/-- Device states reachable from the constructor (`_fobj = None`,
`_context_level = 0`) through the four lifecycle operations. -/
inductive Device.Reachable : Device → Prop
  | init : Device.Reachable ⟨none, 0⟩
  | do_open {d} : Device.Reachable d → Device.Reachable d.do_open
  | do_close {d} : Device.Reachable d → Device.Reachable d.do_close
  | enter {d} : Device.Reachable d → Device.Reachable d.enter
  | leave {d} : Device.Reachable d → Device.Reachable d.leave

/-- A scope operation on the reentrant context manager. -/
inductive COp where
  | enter
  | leave
  deriving DecidableEq, Repr

/-- Apply one scope operation. -/
def COp.app : COp → Device → Device
  | .enter, d => d.enter
  | .leave, d => d.leave

/-- The nesting level after one scope operation. -/
def COp.level : COp → ℤ → ℤ
  | .enter, l => l + 1
  | .leave, l => l - 1

/-- A balanced inner sequence: starting from level `l`, the nesting
level stays at least 1 after every operation (no operation in the
sequence is the outermost exit). -/
def innerOps : ℤ → List COp → Bool
  | _, [] => true
  | l, op :: rest => (1 ≤ op.level l) && innerOps (op.level l) rest

/-- `openThroughout d ops`: the device is open in state `d` and stays
open after every operation of `ops`. -/
def openThroughout : Device → List COp → Bool
  | d, [] => !d.closed
  | d, op :: rest => !d.closed && openThroughout (op.app d) rest

/-! ## Config validation (config.py, `ConfigManager.validate`) -/

/-- Callable attributes available on a `Controls` object: the methods
the `Controls` class body defines, plus the `dict` methods it
inherits.  (Its data lives in the mapping itself, not in attributes:
`Controls.__setattr__` stores into the dict.) -/
def Controls.methodNames : List String :=
  ["from_device", "used_classes", "with_class", "set_to_default", "set_clipping",
   "clear", "copy", "fromkeys", "get", "items", "keys", "pop", "popitem",
   "setdefault", "update", "values"]

/-- The attribute access `self.device.controls.named_keys()` in
`ConfigManager.validate`, for a device whose controls have config
names `cfgNames`.  Python resolution on a `Controls` (a `dict`
subclass): no class defines `named_keys`, so `Controls.__getattr__`
fires and tries `self[key]`; `__missing__` scans the stored controls
for one whose `config_name` matches, else raises `KeyError`, which
`__getattr__` turns into `AttributeError`.  If a control happens to be
named `named_keys`, the subsequent call fails because a control object
is not callable.  The first branch is what the (nonexistent) method
would have to return for `validate`'s loop; it is dead code since
`"named_keys"` is not in `Controls.methodNames`. -/
def Controls.named_keys_lookup (cfgNames : List String) : Except PyErr (List String) :=
  if "named_keys" ∈ Controls.methodNames then .ok cfgNames
  else if "named_keys" ∈ cfgNames then .error .typeError
  else .error .attributeError

/-- Loaded configuration state of a `ConfigManager`: whether `load`
set a filename (`config_loaded`) and the parsed sections. -/
structure Config where
  loaded : Bool
  sections : List (String × List (String × String))
  deriving DecidableEq, Repr

/-- `configparser` section membership. -/
def Config.has_section (c : Config) (s : String) : Bool :=
  (c.sections.lookup s).isSome

/-- `config.items(section)`. -/
def Config.items (c : Config) (s : String) : List (String × String) :=
  (c.sections.lookup s).getD []

/-- The `device`-section values `validate` compares against in
pedantic mode (stringified device attributes). -/
structure DeviceIdStrings where
  card : String
  driver : String
  version : String
  legacy_controls : String
  deriving DecidableEq, Repr

/-- The pedantic tail of `validate`: require a `device` section and
compare `card`, `driver`, `version` and `legacy_controls` against the
device (a missing option raises `KeyError`, a mismatch
`CompatibilityError`). -/
def ConfigManager.validate_pedantic (cfg : Config) (dev : DeviceIdStrings) :
    Except PyErr Unit :=
  if ¬ cfg.has_section "device" then .error .configurationError
  else
    let dv := cfg.items "device"
    let check : String → String → Except PyErr Unit := fun option have_ =>
      match dv.lookup option with
      | none => .error .keyError
      | some want => if want = have_ then .ok () else .error .compatibilityError
    do
      let _ ← check "card" dev.card
      let _ ← check "driver" dev.driver
      let _ ← check "version" dev.version
      check "legacy_controls" dev.legacy_controls

/-- `ConfigManager.validate(pedantic)`: require a loaded config and a
`controls` section, fetch the device's known control names via
`self.device.controls.named_keys()`, reject any `controls` key not
among them with `CompatibilityError`, then run the pedantic checks if
asked. -/
def ConfigManager.validate (cfg : Config) (ctrlNames : List String)
    (pedantic : Bool) (dev : DeviceIdStrings) : Except PyErr Unit :=
  if ¬ cfg.loaded then .error .runtimeError
  else if ¬ cfg.has_section "controls" then .error .configurationError
  else
    match Controls.named_keys_lookup ctrlNames with
    | .error e => .error e
    | .ok controls =>
      match (cfg.items "controls").find? (fun kv => ¬ controls.contains kv.1) with
      | some _ => .error .compatibilityError
      | none =>
        if pedantic then ConfigManager.validate_pedantic cfg dev else .ok ()

/-! ## Async event reader overflow (device.py, `EventReader._on_event`) -/

/-- `asyncio.Queue`: a FIFO with a maximum size (`maxsize <= 0` means
unbounded). -/
structure AsyncioQueue (α : Type) where
  maxsize : ℕ
  items : List α
  deriving DecidableEq, Repr

/-- `asyncio.Queue.full()`. -/
def AsyncioQueue.full {α : Type} (q : AsyncioQueue α) : Bool :=
  0 < q.maxsize && q.maxsize ≤ q.items.length

/-- `asyncio.Queue.put_nowait(item)`: raises `QueueFull` when full. -/
def AsyncioQueue.put_nowait {α : Type} (q : AsyncioQueue α) (a : α) :
    Except PyErr (AsyncioQueue α) :=
  if q.full then .error .queueFull else .ok { q with items := q.items ++ [a] }

/-- `asyncio.Queue.get_nowait()`: raises `QueueEmpty` when empty, else
pops the oldest item. -/
def AsyncioQueue.get_nowait {α : Type} (q : AsyncioQueue α) :
    Except PyErr (α × AsyncioQueue α) :=
  match q.items with
  | [] => .error .queueEmpty
  | a :: rest => .ok (a, { q with items := rest })

/-- The public methods of `asyncio.Queue` (per the asyncio API). -/
def AsyncioQueue.methodNames : List String :=
  ["empty", "full", "get", "get_nowait", "join", "put", "put_nowait",
   "qsize", "task_done"]

/-- `EventReader._on_event`, queue-management part: with `task` the
result wrapper for the readiness edge, the source runs
`if buffer.full(): buffer.popleft()` then `buffer.put_nowait(task)`.
`popleft` is not an `asyncio.Queue` method (it is a `collections.deque`
method), so on a full queue the attribute access raises
`AttributeError`; the drop-oldest branch guarded by the membership
test is dead code. -/
def EventReader.on_event {α : Type} (q : AsyncioQueue α) (task : α) :
    Except PyErr (AsyncioQueue α) :=
  if q.full then
    if "popleft" ∈ AsyncioQueue.methodNames then
      match q.get_nowait with
      | .error e => .error e
      | .ok (_, q1) => q1.put_nowait task
    else .error .attributeError
  else q.put_nowait task

/-- `FrameReader._on_event`, queue-management part, for contrast: the
frame reader drops the oldest undelivered item with `get_nowait()`
before enqueueing — the behaviour the spec describes for both
readers. -/
def FrameReader.on_event {α : Type} (q : AsyncioQueue α) (task : α) :
    Except PyErr (AsyncioQueue α) :=
  if q.full then
    match q.get_nowait with
    | .error e => .error e
    | .ok (_, q1) => q1.put_nowait task
  else q.put_nowait task

/-! ## Theorems -/

theorem BaseNumericControl.set_value_pint (c : NumCtrl) (z : ℤ) :
    BaseNumericControl.set_value c (.pint z) = BaseNumericControl.mangle_write c z := rfl

/-- C4: For every numeric control, with clipping enabled an assignment
above `maximum` stores `maximum` and one below `minimum` stores
`minimum`; with clipping disabled any out-of-range assignment raises
the `OutOfRange` kind and no control write is issued, while in-range
values are written unchanged; a non-integral input is truncated to an
integer before the range check; an uncoercible input raises the
`TypeError` kind (the spec's coercion-failure kind; the Python class is
`ValueError`) with no control write. -/
theorem C4_numeric_control_write (c : NumCtrl) (z : ℤ) (q : ℚ)
    (hmm : c.minimum ≤ c.maximum) :
    (c.clipping = true → c.maximum < z →
      BaseNumericControl.set_value c (.pint z) = .ok c.maximum)
  ∧ (c.clipping = true → z < c.minimum →
      BaseNumericControl.set_value c (.pint z) = .ok c.minimum)
  ∧ (c.clipping = false → (z < c.minimum ∨ c.maximum < z) →
      BaseNumericControl.set_value c (.pint z) = .error .outOfRange)
  ∧ (c.clipping = false → c.minimum ≤ z → z ≤ c.maximum →
      BaseNumericControl.set_value c (.pint z) = .ok z)
  ∧ (BaseNumericControl.set_value c (.pfloat q)
      = BaseNumericControl.set_value c (.pint (pyIntOfRat q)))
  ∧ (BaseNumericControl.set_value c (.pother none) = .error .typeError) := by
  refine ⟨?_, ?_, ?_, ?_, rfl, rfl⟩
  · intro hc h
    rw [BaseNumericControl.set_value_pint, BaseNumericControl.mangle_write, hc]
    simp only [if_true]
    split_ifs <;> first | rfl | (exfalso; omega)
  · intro hc h
    rw [BaseNumericControl.set_value_pint, BaseNumericControl.mangle_write, hc]
    simp only [if_true]
    split_ifs <;> first | rfl | (exfalso; omega)
  · intro hc h
    rw [BaseNumericControl.set_value_pint, BaseNumericControl.mangle_write, hc]
    simp only [Bool.false_eq_true, if_false]
    rcases h with h | h <;> split_ifs <;> first | rfl | (exfalso; omega)
  · intro hc h1 h2
    rw [BaseNumericControl.set_value_pint, BaseNumericControl.mangle_write, hc]
    simp only [Bool.false_eq_true, if_false]
    split_ifs <;> first | rfl | (exfalso; omega)

/-- Witness for C4 at a brightness-like control `[-64, 64]`, step 1:
with clipping, writing 200 stores 64; the float `200.7` is truncated
to 200 first; without clipping, writing 200 raises `OutOfRange`. -/
theorem C4_numeric_control_write_witness :
    ((-64 : ℤ) ≤ 64)
  ∧ BaseNumericControl.set_value ⟨-64, 64, 1, true⟩ (.pint 200) = .ok 64
  ∧ BaseNumericControl.set_value ⟨-64, 64, 1, true⟩ (.pfloat (2007 / 10))
      = BaseNumericControl.set_value ⟨-64, 64, 1, true⟩ (.pint (pyIntOfRat (2007 / 10)))
  ∧ BaseNumericControl.set_value ⟨-64, 64, 1, false⟩ (.pint 200) = .error .outOfRange :=
  ⟨by decide,
   (C4_numeric_control_write ⟨-64, 64, 1, true⟩ 200 0 (by decide)).1 rfl (by decide),
   (C4_numeric_control_write ⟨-64, 64, 1, true⟩ 200 (2007 / 10) (by decide)).2.2.2.2.1,
   (C4_numeric_control_write ⟨-64, 64, 1, false⟩ 200 0 (by decide)).2.2.1 rfl
     (Or.inr (by decide))⟩

/-- C8 counterexample: a `U8` control whose descriptor claims
`maximum = 2^8 + 1` does not survive construction — the constructor
raises `RuntimeWarning` instead of producing a control. -/
theorem C8_counterexample :
    U8Control.init ⟨0, 2 ^ 8 + 1, 1, 0⟩ true = .error .runtimeWarning := by
  rfl

/-- C8 (amended): a descriptor whose claimed minimum is below the
variant's lower bound or whose claimed maximum is above the variant's
upper bound makes the constructor raise `RuntimeWarning`, so the
control is NOT constructed; a descriptor within the variant bounds
constructs the control.  The five variants instantiate the shared
constructor at the bounds Integer `[-2^31, 2^31-1]`, Integer64
`[-2^63, 2^63-1]`, U8 `[0, 2^8]`, U16 `[0, 2^16]`, U32 `[0, 2^32]`. -/
theorem C8_bound_check_amended (lower upper : ℤ) (info : NumCtrlInfo) (clipping : Bool) :
    ((info.minimum < lower ∨ upper < info.maximum) ↔
      BaseNumericControl.init lower upper info clipping = .error .runtimeWarning)
  ∧ (lower ≤ info.minimum → info.maximum ≤ upper →
      BaseNumericControl.init lower upper info clipping
        = .ok ⟨info.minimum, info.maximum, info.step, clipping⟩)
  ∧ IntegerControl.init info clipping
      = BaseNumericControl.init (-(2 ^ 31)) (2 ^ 31 - 1) info clipping
  ∧ Integer64Control.init info clipping
      = BaseNumericControl.init (-(2 ^ 63)) (2 ^ 63 - 1) info clipping
  ∧ U8Control.init info clipping = BaseNumericControl.init 0 (2 ^ 8) info clipping
  ∧ U16Control.init info clipping = BaseNumericControl.init 0 (2 ^ 16) info clipping
  ∧ U32Control.init info clipping = BaseNumericControl.init 0 (2 ^ 32) info clipping := by
  refine ⟨?_, ?_, rfl, rfl, rfl, rfl, rfl⟩
  · rw [BaseNumericControl.init]
    split_ifs with h1 h2 <;> simp <;> omega
  · intro h1 h2
    rw [BaseNumericControl.init]
    split_ifs <;> first | rfl | (exfalso; omega)

/-- Witness for C8 (amended): the U8 descriptor claiming
`maximum = 257` raises `RuntimeWarning`; the in-bounds descriptor
`[0, 255]` is constructed. -/
theorem C8_bound_check_amended_witness :
    ((0 : ℤ) < 0 ∨ (2 ^ 8 : ℤ) < 257 ↔
      BaseNumericControl.init 0 (2 ^ 8) ⟨0, 257, 1, 0⟩ true = .error .runtimeWarning)
  ∧ BaseNumericControl.init 0 (2 ^ 8) ⟨0, 255, 1, 0⟩ true = .ok ⟨0, 255, 1, true⟩ :=
  ⟨(C8_bound_check_amended 0 (2 ^ 8) ⟨0, 257, 1, 0⟩ true).1,
   (C8_bound_check_amended 0 (2 ^ 8) ⟨0, 255, 1, 0⟩ true).2.1 (by decide) (by decide)⟩

/-- C9: A boolean-control write passes a boolean literal through;
a string in `{true,1,yes,on,enable}` writes `true`, one in
`{false,0,no,off,disable}` writes `false`, and any other string raises
the `TypeError` kind (the spec's coercion-failure kind; the Python
class is `ValueError`); any non-string, non-boolean value coercible to
boolean is coerced and written, and an uncoercible one raises the
`TypeError` kind. -/
theorem C9_boolean_coercion (b : Bool) (s : String) :
    (BooleanControl.set_value (.pybool b) = .ok b)
  ∧ (s ∈ BooleanControl.true_strings → BooleanControl.set_value (.pystr s) = .ok true)
  ∧ (s ∈ BooleanControl.false_strings → BooleanControl.set_value (.pystr s) = .ok false)
  ∧ (s ∉ BooleanControl.true_strings → s ∉ BooleanControl.false_strings →
      BooleanControl.set_value (.pystr s) = .error .typeError)
  ∧ (BooleanControl.set_value (.pother (some b)) = .ok b)
  ∧ (BooleanControl.set_value (.pother none) = .error .typeError) := by
  refine ⟨rfl, ?_, ?_, ?_, rfl, rfl⟩
  · intro h
    simp [BooleanControl.set_value, BooleanControl.convert_write, h]
  · intro h
    have hnt : s ∉ BooleanControl.true_strings := by
      simp only [BooleanControl.false_strings, List.mem_cons,
        List.not_mem_nil, or_false] at h
      rcases h with h | h | h | h | h <;> subst h <;> decide
    simp [BooleanControl.set_value, BooleanControl.convert_write, h, hnt]
  · intro h1 h2
    simp [BooleanControl.set_value, BooleanControl.convert_write, h1, h2]

/-- Witness for C9 on concrete strings: `"yes"` writes `true`, `"off"`
writes `false`, `"maybe"` raises the coercion-failure kind. -/
theorem C9_boolean_coercion_witness :
    ("yes" ∈ BooleanControl.true_strings →
      BooleanControl.set_value (.pystr "yes") = .ok true)
  ∧ BooleanControl.set_value (.pystr "off") = .ok false
  ∧ BooleanControl.set_value (.pystr "maybe") = .error .typeError :=
  ⟨(C9_boolean_coercion true "yes").2.1,
   (C9_boolean_coercion true "off").2.2.1 (by decide),
   (C9_boolean_coercion true "maybe").2.2.2.1 (by decide) (by decide)⟩

/-- C7 counterexample: a DISCRETE frame interval whose fraction has a
zero numerator makes the enumeration raise `ZeroDivisionError`
(Python evaluates `denominator / numerator`), instead of yielding a
zero rate. -/
theorem C7_counterexample :
    get_frame_intervals (fun d n => (d : ℚ) / (n : ℚ)) 875967048 640 480
      [⟨1, ⟨0, 30⟩, ⟨0, 0⟩, ⟨0, 0⟩, ⟨0, 0⟩⟩] = .error .zeroDivisionError := by
  rfl

/-- C7 (amended): in frame-interval enumeration, only the
stepwise/continuous branch normalises a zero numerator to a zero rate:
such intervals are exposed as `(min, max, step)` fractions with
`fps = denominator / numerator` and a zero numerator yielding rate 0;
a DISCRETE interval exposes `min_fps = max_fps = step_fps`, but a
DISCRETE interval with a zero numerator raises `ZeroDivisionError`
rather than yielding a zero rate.  (`fdiv` stands for the Python float
division used in the DISCRETE branch.) -/
theorem C7_frame_intervals_amended (fdiv : ℕ → ℕ → ℚ) (pfmt w h : ℕ) (v : FrmIval) :
    (v.typ = 3 →
      get_frame_interval_entry fdiv pfmt w h v =
        .ok (some ⟨v.typ, pfmt, w, h,
          (if v.stepMin.numerator = 0 then 0
            else (v.stepMin.denominator : ℚ) / (v.stepMin.numerator : ℚ)),
          (if v.stepMax.numerator = 0 then 0
            else (v.stepMax.denominator : ℚ) / (v.stepMax.numerator : ℚ)),
          (if v.stepStep.numerator = 0 then 0
            else (v.stepStep.denominator : ℚ) / (v.stepStep.numerator : ℚ))⟩))
  ∧ (v.typ = 1 → v.dis.numerator = 0 →
      get_frame_interval_entry fdiv pfmt w h v = .error .zeroDivisionError)
  ∧ (v.typ = 1 → v.dis.numerator ≠ 0 →
      get_frame_interval_entry fdiv pfmt w h v =
        .ok (some ⟨v.typ, pfmt, w, h, fdiv v.dis.denominator v.dis.numerator,
          fdiv v.dis.denominator v.dis.numerator,
          fdiv v.dis.denominator v.dis.numerator⟩)) := by
  refine ⟨?_, ?_, ?_⟩
  · intro ht
    rw [get_frame_interval_entry]
    rw [if_neg (by omega), if_pos (Or.inr ht)]
  · intro ht hz
    rw [get_frame_interval_entry, if_pos ht, if_pos hz]
  · intro ht hz
    rw [get_frame_interval_entry, if_pos ht, if_neg hz]

/-- Witness for C7 (amended): a stepwise interval with a zero step
numerator yields a zero `step_fps` (and `min_fps = 30`,
`max_fps = 15`); a DISCRETE interval `1/30` yields the same rate in
all three fields; a DISCRETE interval with zero numerator raises. -/
theorem C7_frame_intervals_amended_witness :
    get_frame_interval_entry (fun d n => (d : ℚ) / (n : ℚ)) 875967048 640 480
        ⟨3, ⟨0, 0⟩, ⟨1, 30⟩, ⟨2, 30⟩, ⟨0, 5⟩⟩
      = .ok (some ⟨3, 875967048, 640, 480, 30, 15, 0⟩)
  ∧ get_frame_interval_entry (fun d n => (d : ℚ) / (n : ℚ)) 875967048 640 480
        ⟨1, ⟨1, 30⟩, ⟨0, 0⟩, ⟨0, 0⟩, ⟨0, 0⟩⟩
      = .ok (some ⟨1, 875967048, 640, 480, 30, 30, 30⟩)
  ∧ get_frame_interval_entry (fun d n => (d : ℚ) / (n : ℚ)) 875967048 640 480
        ⟨1, ⟨0, 30⟩, ⟨0, 0⟩, ⟨0, 0⟩, ⟨0, 0⟩⟩ = .error .zeroDivisionError := by
  refine ⟨?_, ?_, ?_⟩
  · rw [(C7_frame_intervals_amended (fun d n => (d : ℚ) / (n : ℚ))
      875967048 640 480 ⟨3, ⟨0, 0⟩, ⟨1, 30⟩, ⟨2, 30⟩, ⟨0, 5⟩⟩).1 rfl]
    norm_num
  · rw [(C7_frame_intervals_amended (fun d n => (d : ℚ) / (n : ℚ))
      875967048 640 480 ⟨1, ⟨1, 30⟩, ⟨0, 0⟩, ⟨0, 0⟩, ⟨0, 0⟩⟩).2.2 rfl (by decide)]
    norm_num
  · exact (C7_frame_intervals_amended (fun d n => (d : ℚ) / (n : ℚ))
      875967048 640 480 ⟨1, ⟨0, 30⟩, ⟨0, 0⟩, ⟨0, 0⟩, ⟨0, 0⟩⟩).2.1 rfl rfl

theorem iter_read_length_le {α : Type} (kern : ℕ → Except IoErr α) (ig : Bool) :
    ∀ (idxs : List ℕ) (l : List α),
      iter_read kern ig idxs = .ok l → l.length ≤ idxs.length := by
  intro idxs
  induction idxs with
  | nil =>
    intro l h
    rw [iter_read] at h
    cases h
    exact Nat.le_refl 0
  | cons i rest ih =>
    intro l h
    rw [iter_read] at h
    cases hk : kern i with
    | ok a =>
      rw [hk] at h
      cases hr : iter_read kern ig rest with
      | ok l' =>
        rw [hr] at h
        cases h
        exact Nat.succ_le_succ (ih l' hr)
      | error e =>
        rw [hr] at h
        cases h
    | error e =>
      rw [hk] at h
      cases e with
      | einval =>
        cases ig with
        | true =>
          simp only [if_true] at h
          exact Nat.le_succ_of_le (ih l h)
        | false =>
          simp only [Bool.false_eq_true, if_false] at h
          cases h
          exact Nat.zero_le _
      | other n => cases h

theorem iter_read_all_ok {α : Type} (kern : ℕ → Except IoErr α) (ig : Bool)
    (f : ℕ → α) (hkern : ∀ i, kern i = .ok (f i)) :
    ∀ idxs : List ℕ, iter_read kern ig idxs = .ok (idxs.map f) := by
  intro idxs
  induction idxs with
  | nil => rw [iter_read]; rfl
  | cons i rest ih =>
    rw [iter_read, hkern i, ih]
    rfl

/-- C10: every enumeration loop built on `iter_read` with its default
bounds probes at most the 128 indices `0..127`: any successful result
has at most 128 entries, and on a kernel that accepts every index the
loop returns exactly the records of indices `0..127` without error,
silently omitting the rest. -/
theorem C10_enumeration_probe_bound {α : Type} (kern : ℕ → Except IoErr α)
    (f : ℕ → α) (l : List α) :
    (iter_read_default kern = .ok l → l.length ≤ 128)
  ∧ ((∀ i, kern i = .ok (f i)) →
      iter_read_default kern = .ok ((pyRange 0 128 1).map f)
        ∧ ((pyRange 0 128 1).map f).length = 128)
  ∧ (pyRange 0 128 1).length = 128 := by
  have hlen : (pyRange 0 128 1).length = 128 := by
    rw [pyRange, if_neg (by omega)]
    simp [List.length_range']
  refine ⟨?_, ?_, hlen⟩
  · intro h
    have := iter_read_length_le kern false (pyRange 0 128 1) l h
    omega
  · intro hkern
    refine ⟨iter_read_all_ok kern false f hkern _, ?_⟩
    rw [List.length_map]
    exact hlen

/-- Witness for C10 on a kernel that accepts every index: the walk
returns the 128 records of indices 0..127. -/
theorem C10_enumeration_probe_bound_witness :
    iter_read_default (fun i => (Except.ok i : Except IoErr ℕ))
        = .ok ((pyRange 0 128 1).map (fun i => i))
  ∧ ((pyRange 0 128 1).map (fun i : ℕ => i)).length = 128 :=
  (C10_enumeration_probe_bound (fun i => (Except.ok i : Except IoErr ℕ))
    (fun i => i) []).2.1 (fun _ => rfl)

theorem grab_iter_preserves {ε α : Type} (body : ℕ → Except ε α) :
    ∀ (n : ℕ) (st : QState), st.user = [] → st.kernel ≠ [] →
      ∃ st', grab_iter body n st = some st' ∧ st'.user = []
        ∧ List.Perm st'.kernel st.kernel := by
  intro n
  induction n with
  | zero => exact fun st hu _ => ⟨st, rfl, hu, List.Perm.refl _⟩
  | succ n ih =>
    intro st hu hk
    obtain ⟨k, u⟩ := st
    simp only at hu hk
    subst hu
    cases k with
    | nil => exact absurd rfl hk
    | cons i rest =>
      have hscope : QueueReader.scope ⟨i :: rest, []⟩ body
          = some (body i, ⟨rest ++ [i], []⟩) := by
        simp [QueueReader.scope, dequeue_buffer, enqueue_buffer]
      have h1 : grab_iter body (n + 1) ⟨i :: rest, []⟩
          = grab_iter body n ⟨rest ++ [i], []⟩ := by
        rw [grab_iter, hscope]
      obtain ⟨st', hg, hu', hp⟩ := ih ⟨rest ++ [i], []⟩ rfl (by simp)
      exact ⟨st', h1 ▸ hg, hu', hp.trans (List.perm_append_singleton i rest)⟩

/-- C1: a buffer successfully dequeued by the grab scope's `__enter__`
is re-enqueued by its `__exit__` whatever the body's outcome — the
body is an arbitrary `Except`, so this covers exceptional unwind — and
the dequeued index ends up back in the kernel queue with the caller
owning nothing; consequently an iteration of `n` grab scopes leaves
the kernel-owned buffer set a permutation of the original (net change
zero) with no buffer owned by the caller. -/
theorem C1_grab_scope_requeues {ε α : Type} (body : ℕ → Except ε α)
    (st : QState) (n i : ℕ) (rest : List ℕ)
    (hu : st.user = []) (hk : st.kernel = i :: rest) :
    (QueueReader.scope st body = some (body i, ⟨rest ++ [i], []⟩) ∧ i ∈ rest ++ [i])
  ∧ (∃ st', grab_iter body n st = some st' ∧ st'.user = []
      ∧ st'.kernel.length = st.kernel.length
      ∧ List.Perm st'.kernel st.kernel) := by
  obtain ⟨k, u⟩ := st
  simp only at hu hk
  subst hu; subst hk
  refine ⟨⟨?_, ?_⟩, ?_⟩
  · simp [QueueReader.scope, dequeue_buffer, enqueue_buffer]
  · simp
  · obtain ⟨st', hg, hu', hp⟩ :=
      grab_iter_preserves body n ⟨i :: rest, []⟩ rfl (by simp)
    exact ⟨st', hg, hu', hp.length_eq, hp⟩

/-- Witness for C1 with two buffers and a body that raises on every
frame: the scope still re-enqueues, and three iterations leave the
kernel owning both buffers and the caller none. -/
theorem C1_grab_scope_requeues_witness :
    (QueueReader.scope ⟨[0, 1], []⟩ (fun _ => (Except.error () : Except Unit ℕ))
        = some ((fun _ => (Except.error () : Except Unit ℕ)) 0, ⟨[1] ++ [0], []⟩)
      ∧ 0 ∈ [1] ++ [0])
  ∧ (∃ st', grab_iter (fun _ => (Except.error () : Except Unit ℕ)) 3 ⟨[0, 1], []⟩
        = some st' ∧ st'.user = []
      ∧ st'.kernel.length = (QState.mk [0, 1] []).kernel.length
      ∧ List.Perm st'.kernel (QState.mk [0, 1] []).kernel) :=
  C1_grab_scope_requeues (fun _ => .error ()) ⟨[0, 1], []⟩ 3 0 [1] rfl rfl

/-- C2: a frame delivered by `raw_read` carries exactly the mapped
region of the buffer at `buff.index` truncated to `bytesused` bytes
(so `len(bytes(frame)) = bytesused`, given the kernel guarantee
`bytesused ≤` the region length), its timestamp is
`secs + usecs / 10^6` (microseconds), and its pixel format is that of
the session's current format. -/
theorem C2_frame_exactness (st : MemoryMapState) (buff : RawBuffer)
    (region : List ℕ) (frame : Frame)
    (hreg : st.buffers.get? buff.index = some region)
    (hlen : buff.bytesused ≤ region.length)
    (hread : MemoryMap.raw_read st buff = some frame) :
    frame.toBytes.length = buff.bytesused
  ∧ frame.toBytes = region.take buff.bytesused
  ∧ frame.timestamp
      = (buff.timestamp.secs : ℚ) + (buff.timestamp.usecs : ℚ) / 1000000
  ∧ frame.pixel_format = st.format.pixel_format := by
  rw [MemoryMap.raw_read, MemoryMap.raw_grab, hreg] at hread
  simp only [Option.map_some'] at hread
  cases hread
  refine ⟨?_, rfl, ?_, rfl⟩
  · rw [Frame.toBytes]
    simp [List.length_take, Nat.min_eq_left hlen]
  · rw [Frame.timestamp, mul_one_div]

/-- Witness for C2 on the mock-hardware shape: a 3-byte region read
with `bytesused = 2` yields a 2-byte frame, and the mock timestamp
`secs=123, usecs=456789` yields `123 + 456789/10^6` (i.e. 123.456789,
microseconds — not milliseconds). -/
theorem C2_frame_exactness_witness :
    (Frame.mk [1, 1] ⟨0, 2, 123, ⟨123, 456789⟩⟩ ⟨640, 480, 859981650⟩).toBytes.length
        = RawBuffer.bytesused ⟨0, 2, 123, ⟨123, 456789⟩⟩
  ∧ (Frame.mk [1, 1] ⟨0, 2, 123, ⟨123, 456789⟩⟩ ⟨640, 480, 859981650⟩).timestamp
      = (123 : ℚ) + (456789 : ℚ) / 1000000 :=
  ⟨(C2_frame_exactness ⟨[[1, 1, 1]], ⟨640, 480, 859981650⟩⟩ ⟨0, 2, 123, ⟨123, 456789⟩⟩
      [1, 1, 1] ⟨[1, 1], ⟨0, 2, 123, ⟨123, 456789⟩⟩, ⟨640, 480, 859981650⟩⟩
      rfl (by decide) rfl).1,
   (C2_frame_exactness ⟨[[1, 1, 1]], ⟨640, 480, 859981650⟩⟩ ⟨0, 2, 123, ⟨123, 456789⟩⟩
      [1, 1, 1] ⟨[1, 1], ⟨0, 2, 123, ⟨123, 456789⟩⟩, ⟨640, 480, 859981650⟩⟩
      rfl (by decide) rfl).2.2.1⟩

theorem Device.reachable_inv {d : Device} (h : Device.Reachable d) :
    d.fobj = none ∨ d.fobj = some ⟨false⟩ := by
  induction h with
  | init => exact Or.inl rfl
  | @do_open d h ih =>
    rcases ih with h1 | h1 <;> simp [Device.do_open, h1]
  | @do_close d h ih =>
    rcases ih with h1 | h1 <;> simp [Device.do_close, Device.closed, h1]
  | @enter d h ih =>
    rcases ih with h1 | h1 <;> by_cases hl : d.context_level = 0 <;>
      simp [Device.enter, Device.do_open, h1, hl]
  | @leave d h ih =>
    rcases ih with h1 | h1 <;> by_cases hl : d.context_level - 1 = 0 <;>
      simp [Device.leave, Device.do_close, Device.closed, h1, hl]

theorem openThroughout_of_innerOps :
    ∀ (ops : List COp) (d : Device), d.closed = false → 1 ≤ d.context_level →
      innerOps d.context_level ops = true → openThroughout d ops = true := by
  intro ops
  induction ops with
  | nil =>
    intro d h1 _ _
    rw [openThroughout, h1]
    rfl
  | cons op rest ih =>
    intro d h1 h2 h3
    rw [innerOps, Bool.and_eq_true] at h3
    obtain ⟨hd, h3⟩ := h3
    have hlev : 1 ≤ op.level d.context_level := of_decide_eq_true hd
    · have hstate : (op.app d).closed = false
          ∧ (op.app d).context_level = op.level d.context_level := by
        cases op with
        | enter =>
          have hne : ¬ d.context_level = 0 := by omega
          constructor
          · show (Device.enter d).closed = false
            rw [Device.enter]
            simp only [if_neg hne]
            exact h1
          · show (Device.enter d).context_level = d.context_level + 1
            rw [Device.enter]
            simp only [if_neg hne]
        | leave =>
          have hne : ¬ d.context_level - 1 = 0 := by
            simp only [COp.level] at hlev
            omega
          constructor
          · show (Device.leave d).closed = false
            rw [Device.leave]
            simp only [if_neg hne]
            exact h1
          · show (Device.leave d).context_level = d.context_level - 1
            rw [Device.leave]
            simp only [if_neg hne]
      rw [openThroughout, h1]
      simp only [Bool.not_false, Bool.true_and]
      exact ih (op.app d) hstate.1 (hstate.2 ▸ hlev) (hstate.2 ▸ h3)

/-- C3: in every reachable device state, `closed` holds exactly when
the file object is absent; `open(); close()` always leaves the
descriptor absent; and after the outermost scope enter, any balanced
inner sequence of enters and exits (one that never brings the nesting
level below 1) keeps the device open at every step — only the
outermost exit can close it. -/
theorem C3_device_lifecycle (d : Device) (h : Device.Reachable d) :
    (d.closed = true ↔ d.fobj = none)
  ∧ (d.do_open.do_close).fobj = none
  ∧ (d.context_level = 0 → ∀ ops : List COp, innerOps 1 ops = true →
      openThroughout d.enter ops = true) := by
  have hinv := Device.reachable_inv h
  refine ⟨?_, ?_, ?_⟩
  · rcases hinv with h1 | h1 <;> rw [Device.closed, h1] <;> simp
  · rcases hinv with h1 | h1 <;>
      simp [Device.do_open, Device.do_close, Device.closed, h1]
  · intro hl ops hops
    have hopen : d.enter.closed = false ∧ d.enter.context_level = 1 := by
      rcases hinv with h1 | h1 <;>
        simp [Device.enter, hl, Device.do_open, Device.closed, h1]
    exact openThroughout_of_innerOps ops d.enter hopen.1
      (by rw [hopen.2]) (by rw [hopen.2]; exact hops)

/-- Witness for C3 on a freshly constructed device: `closed` iff the
file object is absent, `open(); close()` leaves it absent, and the
inner sequence enter-enter-exit-exit-enter-exit after the outermost
enter keeps the device open throughout. -/
theorem C3_device_lifecycle_witness :
    (Device.closed ⟨none, 0⟩ = true ↔ (Device.mk none 0).fobj = none)
  ∧ ((Device.mk none 0).do_open.do_close).fobj = none
  ∧ openThroughout (Device.enter ⟨none, 0⟩)
      [.enter, .enter, .leave, .leave, .enter, .leave] = true :=
  ⟨(C3_device_lifecycle ⟨none, 0⟩ Device.Reachable.init).1,
   (C3_device_lifecycle ⟨none, 0⟩ Device.Reachable.init).2.1,
   (C3_device_lifecycle ⟨none, 0⟩ Device.Reachable.init).2.2 rfl
     [.enter, .enter, .leave, .leave, .enter, .leave] (by decide)⟩

/-- C5: evaluation of `ConfigManager.validate(pedantic=False)` on a
device whose only control is `brightness`, with a loaded configuration
holding a `controls` section.  Whether the section's key names a known
control (`brightness`) or an unknown one (`unknown_ctrl`), `validate`
raises `AttributeError`: it calls `self.device.controls.named_keys()`,
and no class in the source defines `named_keys`.  It neither completes
without error nor raises `CompatibilityError` as claimed. -/
theorem C5_validate_named_keys_crash :
    (ConfigManager.validate ⟨true, [("controls", [("brightness", "10")])]⟩
        ["brightness"] false ⟨"mock camera", "mock", "5.4.12", "False"⟩
      = .error .attributeError)
  ∧ (ConfigManager.validate ⟨true, [("controls", [("unknown_ctrl", "1")])]⟩
        ["brightness"] false ⟨"mock camera", "mock", "5.4.12", "False"⟩
      = .error .attributeError) := ⟨rfl, rfl⟩

/-- C6: evaluation of `EventReader._on_event` at the failing input —
the default-capacity queue (100) already holding 100 undelivered
events.  Because `asyncio.Queue` has no `popleft` method, the overflow
path raises `AttributeError` instead of dropping the oldest event and
continuing; the non-full path enqueues normally, and the sibling
`FrameReader._on_event` (which uses `get_nowait`) shows the intended
drop-oldest behaviour. -/
theorem C6_event_overflow_attribute_error :
    (EventReader.on_event ⟨100, List.replicate 100 0⟩ (7 : ℕ)
      = .error .attributeError)
  ∧ (EventReader.on_event ⟨100, ([] : List ℕ)⟩ 7 = .ok ⟨100, [7]⟩)
  ∧ (FrameReader.on_event ⟨100, List.replicate 100 0⟩ (7 : ℕ)
      = .ok ⟨100, List.replicate 99 0 ++ [7]⟩) := ⟨rfl, rfl, rfl⟩

end V4l2py
